import Mathlib

/-!
A verification development for the sales-analytics-and-forecast pipeline of
`src/app.py`.  The pipeline's numeric core is embedded shallowly:

* machine floats are idealized as exact rationals (`ℚ`), Python ints as `ℤ`;
* calendar dates are day numbers (`ℤ`): the uploaded tables carry day-granular
  dates, `pd.to_datetime` yields the midnight timestamp of that day, and
  timedelta arithmetic is integer arithmetic on days;
* pandas/sklearn behaviour relevant to the embedded lines is spelled out in
  each definition's doc comment;
* fallible Python code returns `Except PyError`.
-/

/-- The error classes the embedded code can raise, plus the
`InsufficientDataError` class that the design documentation names for an empty
forecast input (the code itself never raises it). -/
inductive PyError where
  /-- Python `KeyError`: a column name absent from a DataFrame. -/
  | keyError (column : String)
  /-- Python `TypeError`, e.g. `int + str` inside a pandas object-dtype sum. -/
  | typeError
  /-- Python `ValueError` without structured payload, e.g. `float("abc")`. -/
  | valueError
  /-- The `ValueError` raised by `validate_data` (app.py line 30); the
  payload is the set of missing column names it reports. -/
  | missingColumnsError (missing : List String)
  /-- The documented error class for forecasting an empty series. -/
  | insufficientDataError
deriving DecidableEq

/-- One validated transaction row (app.py `REQUIRED_COLUMNS`, lines 18-21):
the nine required fields with their documented types.  This is the well-typed
Dataset the pipeline operates on after validation. -/
structure Record where
  date : ℤ
  month : String
  area : String
  product : String
  sale_count : ℤ
  sale_amount : ℚ
  gst : ℚ
  net_value : ℚ
  profit : ℚ
deriving DecidableEq

/-- The `REQUIRED_COLUMNS` set of app.py lines 18-21 (a Python set; listed
here in the source's order). -/
def REQUIRED_COLUMNS : List String :=
  ["date", "month", "area", "product",
   "sale_count", "sale_amount", "gst", "net_value", "profit"]

/-- The `validate_data` helper (app.py lines 27-30): `missing =
REQUIRED_COLUMNS - set(df.columns)`; raise `ValueError(f"Missing columns: {missing}")` when
`missing` is non-empty.  The function reads only the column names, mutates
nothing, and on success control simply returns to the caller, which keeps
using the same DataFrame. -/
def validate_data (columns : List String) : Except PyError Unit :=
  let missing := REQUIRED_COLUMNS.filter (fun c => ¬ c ∈ columns)
  if missing.isEmpty then .ok () else .error (.missingColumnsError missing)

/-- The dashboard summary (app.py lines 96-101 and again 177-182):
field-wise sums of the four numeric columns over the whole Dataset. -/
structure Summary where
  total_sales : ℚ
  total_profit : ℚ
  total_units : ℤ
  total_gst : ℚ
deriving DecidableEq

/-- Summarize a well-typed Dataset: the dict built at app.py lines
96-101, `float(df[c].sum())` for the three currency columns and
`int(df["sale_count"].sum())` for the unit count (on integer data `int` and
`float` are the identity under the exact-arithmetic idealization). -/
def summarize (df : List Record) : Summary :=
  { total_sales := (df.map Record.sale_amount).sum
    total_profit := (df.map Record.profit).sum
    total_units := (df.map Record.sale_count).sum
    total_gst := (df.map Record.gst).sum }

/-- Python `df.groupby(key, as_index=False)["sale_amount"].sum()` (app.py
lines 103-105 and 183): pandas `groupby` with its default sort option returns one
row per distinct key value, in ascending key order, carrying the sum of
`sale_amount` over the rows with that key.  Python compares `str` by code
points, which is the order of Lean's `String` linear order. -/
def group_sum (df : List Record) (key : Record → String) : List (String × ℚ) :=
  (List.insertionSort (· ≤ ·) (df.map key).dedup).map fun k =>
    (k, ((df.filter fun r => key r = k).map Record.sale_amount).sum)

/-- One entry of the DailySeries built at app.py lines 121-123: a distinct
date, the summed `sale_amount` of its rows, and the `day` column value
(`np.arange(len(daily_sales))`). -/
structure DailyEntry where
  date : ℤ
  amount : ℚ
  idx : ℕ
deriving DecidableEq

/-- The summed `sale_amount` of the rows falling on day `d` (the aggregation
performed by `groupby("date")["sale_amount"].sum()`). -/
def dateTotal (df : List Record) (d : ℤ) : ℚ :=
  ((df.filter fun r => r.date = d).map Record.sale_amount).sum

/-- The DailySeries of app.py lines 121-123: group rows by date and sum
`sale_amount` (pandas groupby already sorts the keys ascending; the following
`sort_values("date")` is a stable re-sort and keeps that order), then assign
`day := np.arange(len(daily_sales))`, the 0-based position in sorted order. -/
def dailySeries (df : List Record) : List DailyEntry :=
  ((List.insertionSort (· ≤ ·) (df.map Record.date).dedup).enum).map
    fun p => { date := p.2, amount := dateTotal df p.2, idx := p.1 }

/-- The slope fitted by `LinearRegression().fit(daily_sales[["day"]],
daily_sales["sale_amount"])` (app.py lines 126-127): the ordinary
least-squares closed form.  When the design column has zero variance (a
single sample) the least-squares solver returns the minimal-norm solution,
whose slope is 0. -/
def fitSlope (s : List DailyEntry) : ℚ :=
  let n : ℚ := s.length
  let sx : ℚ := (s.map fun e => (e.idx : ℚ)).sum
  let sy : ℚ := (s.map DailyEntry.amount).sum
  let sxx : ℚ := (s.map fun e => (e.idx : ℚ) * (e.idx : ℚ)).sum
  let sxy : ℚ := (s.map fun e => (e.idx : ℚ) * e.amount).sum
  if n * sxx - sx * sx = 0 then 0 else (n * sxy - sx * sy) / (n * sxx - sx * sx)

/-- The fitted intercept: the least-squares `ȳ - slope * x̄` (0 on an empty
series, where the code would not reach the fit at all). -/
def fitIntercept (s : List DailyEntry) : ℚ :=
  if s.length = 0 then 0
  else ((s.map DailyEntry.amount).sum - fitSlope s * (s.map fun e => (e.idx : ℚ)).sum)
        / (s.length : ℚ)

/-- Evaluate `model.predict` at one design value: the fitted line there. -/
def predict (s : List DailyEntry) (x : ℚ) : ℚ := fitSlope s * x + fitIntercept s

/-- The values `forecast_values = model.predict(np.arange(len(daily_sales),
len(daily_sales) + 30))` (app.py lines 130-132): the fitted line at day
indices `N, N+1, ..., N+29`. -/
def forecastValues (s : List DailyEntry) : List ℚ :=
  (List.range' s.length 30).map fun x : ℕ => predict s (x : ℚ)

/-- The read `daily_sales["date"].iloc[-1]`: the last (therefore greatest)
date of the sorted daily series.  The code only reaches this read on a non-empty series;
the default 0 makes the Lean function total. -/
def lastDate (s : List DailyEntry) : ℤ := (s.map DailyEntry.date).getLastD 0

/-- The dates `forecast_dates = pd.date_range(last + one day, periods=30)`
(app.py lines 134-137): the 30 consecutive calendar days after the last
observed date. -/
def forecastDates (s : List DailyEntry) : List ℤ :=
  (List.range 30).map fun i : ℕ => lastDate s + 1 + (i : ℤ)

/-- The zipped `(date, value)` forecast rows of app.py lines 171-174 (also the
rows of the PDF forecast table). -/
def forecastPoints (s : List DailyEntry) : List (ℤ × ℚ) :=
  (forecastDates s).zip (forecastValues s)

/-- The two chart colors of app.py line 140 (the strings "green" and "red"). -/
inductive TrendColor where
  | green
  | red
deriving DecidableEq

/-- The list `colors` of app.py lines 139-142: green at position `i` when
`i == 0 or forecast_values[i] >= forecast_values[i-1]`, else red.
Entry `i` of this list colors both the marker of forecast point `i` (the
`plt.scatter` call, line 156) and the drawn segment from point `i` to point
`i+1` (the `plt.plot(forecast_dates[i:i+2], ...)` loop, lines 148-154). -/
def chartColors (vs : List ℚ) : List TrendColor :=
  (List.range vs.length).map fun i =>
    if i = 0 then .green
    else if vs.getD (i - 1) 0 ≤ vs.getD i 0 then .green else .red

/-- One cell of the interchange JSON produced by
`df.to_json(date_format="iso", orient="records")` (app.py line 113). -/
inductive JVal where
  /-- A JSON number carrying a (possibly fractional) numeric cell. -/
  | jnum (q : ℚ)
  /-- A JSON number carrying an integer cell. -/
  | jint (n : ℤ)
  /-- A JSON string. -/
  | jstr (s : String)
  /-- The ISO-8601 timestamp string for midnight of the given day.  The ISO
  rendering of a day-granular timestamp parses back (`pd.to_datetime`, app.py
  line 119) to the same day, so the embedding carries the day number. -/
  | jdate (day : ℤ)
deriving DecidableEq

/-- One record object of the interchange JSON: nine named fields. -/
structure JRow where
  date : JVal
  month : JVal
  area : JVal
  product : JVal
  sale_count : JVal
  sale_amount : JVal
  gst : JVal
  net_value : JVal
  profit : JVal
deriving DecidableEq

/-- How `to_json` renders one validated row: dates as ISO timestamp strings,
categorical fields as JSON strings, numeric fields as JSON numbers. -/
def recordToJRow (r : Record) : JRow :=
  { date := .jdate r.date
    month := .jstr r.month
    area := .jstr r.area
    product := .jstr r.product
    sale_count := .jint r.sale_count
    sale_amount := .jnum r.sale_amount
    gst := .jnum r.gst
    net_value := .jnum r.net_value
    profit := .jnum r.profit }

/-- The serialization `df.to_json(date_format="iso", orient="records")`
(app.py line 113): the Dataset as a JSON array of record objects. -/
def to_json (df : List Record) : List JRow := df.map recordToJRow

/-- Reassembling one typed row from a deserialized interchange record
(`pd.read_json` at line 118 recovers the cells; `pd.to_datetime(df["date"])`
at line 119 parses the ISO strings back to timestamps).  A cell of the wrong
shape makes the parse fail. -/
def jrowToRecord (j : JRow) : Option Record :=
  match j.date, j.month, j.area, j.product, j.sale_count,
        j.sale_amount, j.gst, j.net_value, j.profit with
  | .jdate d, .jstr mo, .jstr ar, .jstr pr, .jint sc, .jnum sa, .jnum g,
      .jnum nv, .jnum pf =>
      some { date := d, month := mo, area := ar, product := pr,
             sale_count := sc, sale_amount := sa, gst := g,
             net_value := nv, profit := pf }
  | _, _, _, _, _, _, _, _, _ => none

/-- Everything the `/forecast` route computes from the deserialized Dataset:
the 30 forecast rows, the color list shared by chart segments and markers, and
the Summary and area grouping recomputed for the PDF (app.py lines 176-186). -/
structure ForecastOut where
  points : List (ℤ × ℚ)
  colors : List TrendColor
  summary : Summary
  area_sales : List (String × ℚ)
deriving DecidableEq

/-- The `/forecast` route (app.py lines 117-186) on the interchange-form
Dataset posted back by the dashboard page.  `pd.read_json` of the empty array
produces a DataFrame with NO columns (an empty records array carries no
schema), so `df["date"]` at line 119 raises `KeyError` before anything else
runs; the code contains no empty-input handling of its own.  On a non-empty
array every row is reassembled (an unparseable cell fails the request), the
daily series is built, the line is fitted and extrapolated, and the Summary
and area grouping are recomputed for the PDF. -/
def forecast (rows : List JRow) : Except PyError ForecastOut :=
  if rows.isEmpty then .error (.keyError "date")
  else
    match rows.mapM jrowToRecord with
    | none => .error .valueError
    | some df =>
        let s := dailySeries df
        .ok { points := forecastPoints s
              colors := chartColors (forecastValues s)
              summary := summarize df
              area_sales := group_sum df Record.area }

/-- A cell of the raw, un-validated table as a Python value: pandas keeps a
column that mixes types (or holds strings) at `object` dtype, with each cell
the original Python object. -/
inductive PyVal where
  | num (q : ℚ)
  | str (s : String)
deriving DecidableEq

/-- Whether the cell is a Python number. -/
def PyVal.isNum : PyVal → Bool
  | .num _ => true
  | .str _ => false

/-- Whether the cell is a Python string. -/
def PyVal.isStr : PyVal → Bool
  | .num _ => false
  | .str _ => true

/-- Python `+` on the cell values that occur in a sales table: number plus
number adds, string plus string concatenates, and a mixed pair raises
`TypeError` (this is what aborts `df[c].sum()` on a mixed object column). -/
def pyAdd : PyVal → PyVal → Except PyError PyVal
  | .num a, .num b => .ok (.num (a + b))
  | .str a, .str b => .ok (.str (a ++ b))
  | .num _, .str _ => .error .typeError
  | .str _, .num _ => .error .typeError

/-- Python `df[c].sum()` on an object-dtype column: pandas reduces the cells
left-to-right with Python `+`, and the sum of an empty column is the number
0. -/
def seriesSum : List PyVal → Except PyError PyVal
  | [] => .ok (.num 0)
  | v :: rest => rest.foldlM pyAdd v

/-- Python `float(s)` restricted to the strings this development evaluates it
on: a non-empty string of decimal digits parses to that number, anything else
raises `ValueError`.  (Python's `float` also accepts signs, fractions and
exponents; none occur in the inputs of the theorems below.) -/
def pyFloatOfString (s : String) : Except PyError ℚ :=
  if s.data ≠ [] ∧ s.data.all Char.isDigit then
    .ok ((s.data.foldl (fun n c => 10 * n + (c.toNat - 48)) 0 : ℕ) : ℚ)
  else .error .valueError

/-- Python `float(v)` on a cell value. -/
def pyFloat : PyVal → Except PyError ℚ
  | .num q => .ok q
  | .str s => pyFloatOfString s

/-- Python `int(v)`: a number truncates toward zero, a digit string parses. -/
def pyInt : PyVal → Except PyError ℤ
  | .num q => .ok (if 0 ≤ q then ⌊q⌋ else ⌈q⌉)
  | .str s => (pyFloatOfString s).map fun q => ⌊q⌋

/-- The four cells of one raw table row that `summarize` reads.  The summary
dict of app.py lines 96-101 consults only the columns `sale_amount`,
`profit`, `sale_count` and `gst`; the remaining five required columns are
never touched by it and are omitted from this raw view. -/
structure RawRow where
  sale_count : PyVal
  sale_amount : PyVal
  gst : PyVal
  profit : PyVal
deriving DecidableEq

/-- The summary dict of app.py lines 96-101 evaluated over raw cells, in the
source's evaluation order: `float(df["sale_amount"].sum())`,
`float(df["profit"].sum())`, `int(df["sale_count"].sum())`,
`float(df["gst"].sum())`. -/
def rawSummarize (rows : List RawRow) : Except PyError Summary := do
  let ts ← pyFloat (← seriesSum (rows.map RawRow.sale_amount))
  let tp ← pyFloat (← seriesSum (rows.map RawRow.profit))
  let tu ← pyInt (← seriesSum (rows.map RawRow.sale_count))
  let tg ← pyFloat (← seriesSum (rows.map RawRow.gst))
  return { total_sales := ts, total_profit := tp, total_units := tu, total_gst := tg }

/-- A column of raw cells mixing at least one Python number with at least one
Python string (the situation in which pandas' object-dtype sum raises
`TypeError`). -/
abbrev mixedCol (l : List PyVal) : Prop :=
  (∃ v ∈ l, v.isNum = true) ∧ (∃ w ∈ l, w.isStr = true)

/-- A concrete two-day daily series (days 0 and 2, amounts 100 and 200) used
to instantiate the forecasting theorems. -/
def demoSeries : List DailyEntry :=
  [{ date := 0, amount := 100, idx := 0 }, { date := 2, amount := 200, idx := 1 }]

/-- The daily series of spec scenario C: amount 100 at day index 0 and amount
200 at day index 1. -/
def scenarioC : List DailyEntry :=
  [{ date := 0, amount := 100, idx := 0 }, { date := 1, amount := 200, idx := 1 }]

/-- A concrete one-row validated Dataset used to instantiate the round-trip
theorem. -/
def demoDataset : List Record :=
  [{ date := 0, month := "Jan", area := "North", product := "Widget",
     sale_count := 3, sale_amount := 120, gst := 6, net_value := 114, profit := 20 }]

/-- A raw table whose `profit` column mixes a string cell with a number cell
(the other numeric columns are clean). -/
def mixedProfitRows : List RawRow :=
  [ { sale_count := .num 1, sale_amount := .num 2, gst := .num 3, profit := .str "x" },
    { sale_count := .num 1, sale_amount := .num 2, gst := .num 3, profit := .num 4 } ]

/-- A raw table whose `sale_amount` column holds only digit strings: Python
sums it by string concatenation and `float` then parses the concatenation. -/
def allStringAmountRows : List RawRow :=
  [ { sale_count := .num 2, sale_amount := .str "1", gst := .num 3, profit := .num 4 },
    { sale_count := .num 3, sale_amount := .str "2", gst := .num 4, profit := .num 1 } ]

/-- Sorting the deduplicated values of a list yields a strictly ascending
list (pandas groupby keys are distinct and sorted). -/
theorem sortedKeys_sorted_lt {α : Type} [LinearOrder α] [DecidableEq α] (l : List α) :
    (List.insertionSort (· ≤ ·) l.dedup).Sorted (· < ·) := by
  have hs : (List.insertionSort (· ≤ ·) l.dedup).Sorted (· ≤ ·) :=
    List.sorted_insertionSort _ _
  have hn : (List.insertionSort (· ≤ ·) l.dedup).Nodup :=
    (List.perm_insertionSort (· ≤ ·) l.dedup).symm.nodup (List.nodup_dedup l)
  exact (hs.and hn).imp fun h => lt_of_le_of_ne h.1 h.2

/-- Membership in the sorted deduplicated values is membership in the list. -/
theorem mem_sortedKeys {α : Type} [LinearOrder α] [DecidableEq α] (l : List α) (a : α) :
    a ∈ List.insertionSort (· ≤ ·) l.dedup ↔ a ∈ l := by
  rw [(List.perm_insertionSort (· ≤ ·) l.dedup).mem_iff, List.mem_dedup]

/-- Summing an indicator-style map over a duplicate-free list that contains
the marked element yields just the marked value. -/
theorem sum_map_ite_single (a : String) (c : ℚ) : ∀ (ks : List String), ks.Nodup → a ∈ ks →
    (ks.map fun k => if a = k then c else 0).sum = c := by
  intro ks
  induction ks with
  | nil => intro _ h; cases h
  | cons k t ih =>
    intro hn ha
    rcases List.nodup_cons.mp hn with ⟨hk, hn'⟩
    by_cases h : a = k
    · subst h
      simp only [List.map_cons, List.sum_cons]
      have hz : (t.map fun k => if a = k then c else 0).sum = 0 := by
        apply List.sum_eq_zero
        intro x hx
        rcases List.mem_map.mp hx with ⟨k', hk', rfl⟩
        have hne : a ≠ k' := fun e => hk (by rw [e]; exact hk')
        exact if_neg hne
      simp [hz]
    · have ha' : a ∈ t := by
        rcases List.mem_cons.mp ha with h1 | h1
        · exact absurd h1 h
        · exact h1
      simp only [List.map_cons, if_neg h, List.sum_cons, zero_add]
      exact ih hn' ha'

/-- Fiberwise summation: summing the per-key filtered sums over any
duplicate-free key list that covers the rows recovers the total sum. -/
theorem sum_filter_partition (f : Record → ℚ) (key : Record → String) :
    ∀ (l : List Record) (ks : List String), ks.Nodup → (∀ r ∈ l, key r ∈ ks) →
      (ks.map fun k => ((l.filter fun r => key r = k).map f).sum).sum = (l.map f).sum := by
  intro l
  induction l with
  | nil => intro ks _ _; simp
  | cons r t ih =>
    intro ks hn hc
    have hsplit : ∀ k : String, (((r :: t).filter fun x => key x = k).map f).sum
        = (if key r = k then f r else 0) + ((t.filter fun x => key x = k).map f).sum := by
      intro k
      by_cases h : key r = k
      · simp [List.filter_cons, h]
      · simp [List.filter_cons, h]
    simp only [hsplit]
    rw [List.sum_map_add]
    rw [ih ks hn fun x hx => hc x (List.mem_cons_of_mem _ hx)]
    rw [sum_map_ite_single (key r) (f r) ks hn (hc r (List.mem_cons_self _ _))]
    simp

/-- The extrapolation always produces exactly 30 values. -/
theorem forecastValues_length (s : List DailyEntry) : (forecastValues s).length = 30 := by
  unfold forecastValues
  rw [List.length_map, List.length_range']

/-- The i-th forecast value is the fitted line at day index `N + i`. -/
theorem forecastValues_getD (s : List DailyEntry) (i : ℕ) (hi : i < 30) :
    (forecastValues s).getD i 0 = predict s ((s.length + i : ℕ) : ℚ) := by
  have hl : i < (forecastValues s).length := by rw [forecastValues_length]; exact hi
  rw [List.getD_eq_getElem _ _ hl]
  unfold forecastValues
  simp only [List.getElem_map, List.getElem_range']
  norm_num

/-- The i-th chart color, written out as the source's conditional. -/
theorem chartColors_getD (vs : List ℚ) (i : ℕ) (hi : i < vs.length) :
    (chartColors vs).getD i .red =
      (if i = 0 then .green
       else if vs.getD (i - 1) 0 ≤ vs.getD i 0 then .green else .red) := by
  have hl : i < (chartColors vs).length := by
    unfold chartColors
    rw [List.length_map, List.length_range]
    exact hi
  rw [List.getD_eq_getElem _ _ hl]
  unfold chartColors
  simp only [List.getElem_map, List.getElem_range]

/-- Deserializing the serialized form of any Dataset recovers it row by row,
field by field. -/
theorem to_json_roundtrip (df : List Record) : (to_json df).mapM jrowToRecord = some df := by
  induction df with
  | nil => rfl
  | cons r t ih =>
    show ((recordToJRow r :: t.map recordToJRow).mapM jrowToRecord) = _
    rw [List.mapM_cons]
    show (jrowToRecord (recordToJRow r) >>= fun b =>
      (t.map recordToJRow).mapM jrowToRecord >>= fun bs => pure (b :: bs)) = _
    rw [show jrowToRecord (recordToJRow r) = some r from rfl]
    show ((t.map recordToJRow).mapM jrowToRecord >>= fun bs => some (r :: bs)) = _
    rw [show (t.map recordToJRow).mapM jrowToRecord = some t from ih]
    rfl

/-- Binding a successful step just continues with its value. -/
theorem ok_bind {α β : Type} (a : α) (f : α → Except PyError β) :
    ((Except.ok a : Except PyError α) >>= f) = f a := rfl

/-- A bound computation fails whenever every successful prefix leads into a
failing continuation. -/
theorem exists_error_bind {α β : Type} (x : Except PyError α) (f : α → Except PyError β)
    (h : ∀ a, x = .ok a → ∃ e, f a = .error e) : ∃ e, (x >>= f) = .error e := by
  cases x with
  | error e => exact ⟨e, rfl⟩
  | ok a => exact h a rfl

/-- Python `+` on two cells of the same kind succeeds and keeps the kind. -/
theorem pyAdd_same_kind (a b : PyVal) (h : a.isNum = b.isNum) :
    ∃ c, pyAdd a b = .ok c ∧ c.isNum = a.isNum := by
  cases a with
  | num qa =>
    cases b with
    | num qb => exact ⟨.num (qa + qb), rfl, rfl⟩
    | str sb => simp [PyVal.isNum] at h
  | str sa =>
    cases b with
    | num qb => simp [PyVal.isNum] at h
    | str sb => exact ⟨.str (sa ++ sb), rfl, rfl⟩

/-- Python `+` on a number-string pair raises `TypeError`. -/
theorem pyAdd_mixed (a b : PyVal) (h : ¬ a.isNum = b.isNum) :
    pyAdd a b = .error .typeError := by
  cases a with
  | num qa =>
    cases b with
    | num qb => exact absurd rfl h
    | str sb => rfl
  | str sa =>
    cases b with
    | num qb => rfl
    | str sb => exact absurd rfl h

/-- Folding Python `+` from an accumulator over a list holding a cell of the
other kind raises `TypeError`. -/
theorem foldlM_pyAdd_mixed :
    ∀ (l : List PyVal) (acc : PyVal), (∃ v ∈ l, ¬ v.isNum = acc.isNum) →
      l.foldlM pyAdd acc = .error .typeError := by
  intro l
  induction l with
  | nil =>
    rintro acc ⟨v, hv, -⟩
    cases hv
  | cons w t ih =>
    rintro acc ⟨v, hv, hne⟩
    rw [List.foldlM_cons]
    by_cases hw : w.isNum = acc.isNum
    · obtain ⟨c, hc, hck⟩ := pyAdd_same_kind acc w hw.symm
      rw [hc, ok_bind]
      apply ih c
      rcases List.mem_cons.mp hv with rfl | hvt
      · exact absurd hw hne
      · exact ⟨v, hvt, by rw [hck]; exact hne⟩
    · rw [pyAdd_mixed acc w fun e => hw e.symm]
      rfl

/-- Summing an object-dtype column that mixes numbers and strings raises
`TypeError`. -/
theorem seriesSum_mixed (l : List PyVal)
    (hn : ∃ v ∈ l, v.isNum = true) (hs : ∃ w ∈ l, w.isStr = true) :
    seriesSum l = .error .typeError := by
  match l with
  | [] =>
    obtain ⟨v, hv, -⟩ := hn
    cases hv
  | a :: t =>
    show t.foldlM pyAdd a = .error .typeError
    apply foldlM_pyAdd_mixed
    obtain ⟨v, hv, hvn⟩ := hn
    obtain ⟨w, hw, hws⟩ := hs
    have hwn : w.isNum = false := by
      cases w <;> simp [PyVal.isNum, PyVal.isStr] at hws ⊢
    by_cases ha : a.isNum = true
    · refine ⟨w, ?_, by rw [hwn, ha]; exact fun e => by cases e⟩
      rcases List.mem_cons.mp hw with rfl | hwt
      · simp [ha] at hwn
      · exact hwt
    · have ha' : a.isNum = false := by revert ha; cases a.isNum <;> simp
      refine ⟨v, ?_, by rw [hvn, ha']; exact fun e => by cases e⟩
      rcases List.mem_cons.mp hv with rfl | hvt
      · simp [hvn] at ha'
      · exact hvt

/-- C1: for every non-empty DailySeries of `N` entries, the forecast evaluates
the fitted line at day indices `N, N+1, ..., N+29`, pairs the results with the
calendar dates 1, 2, ..., 30 days after the last observed date, and produces
exactly 30 forecast points in strictly ascending date order. -/
theorem forecast_extrapolates_thirty_days (s : List DailyEntry) (h : s ≠ []) :
    (forecastPoints s).length = 30 ∧
    (∀ j, j < 30 → (forecastPoints s).getD j (0, 0) =
      (lastDate s + 1 + (j : ℤ), predict s ((s.length + j : ℕ) : ℚ))) ∧
    ((forecastPoints s).map Prod.fst).Sorted (· < ·) := by
  have hdl : (forecastDates s).length = 30 := by
    unfold forecastDates
    rw [List.length_map, List.length_range]
  have hlen : (forecastPoints s).length = 30 := by
    unfold forecastPoints
    rw [List.length_zip, hdl, forecastValues_length]
    exact min_self 30
  refine ⟨hlen, ?_, ?_⟩
  · intro j hj
    have hj' : j < (forecastPoints s).length := by rw [hlen]; exact hj
    have hdj : j < (forecastDates s).length := by rw [hdl]; exact hj
    have hvj : j < (forecastValues s).length := by rw [forecastValues_length]; exact hj
    rw [List.getD_eq_getElem _ _ hj']
    unfold forecastPoints
    rw [List.getElem_zip]
    have h1 : (forecastDates s)[j] = lastDate s + 1 + (j : ℤ) := by
      unfold forecastDates
      simp only [List.getElem_map, List.getElem_range]
    have h2 : (forecastValues s)[j] = predict s ((s.length + j : ℕ) : ℚ) := by
      unfold forecastValues
      simp only [List.getElem_map, List.getElem_range']
      norm_num
    rw [h1, h2]
  · have hfst : (forecastPoints s).map Prod.fst = forecastDates s := by
      apply List.map_fst_zip
      rw [hdl, forecastValues_length]
    rw [hfst]
    unfold forecastDates
    refine (List.pairwise_lt_range 30).map _ fun a b hab => ?_
    omega

/-- Witness for C1: the forecast shape statement instantiated at the concrete
two-day series. -/
theorem forecast_extrapolates_thirty_days_witness :
    (forecastPoints demoSeries).length = 30 ∧
    (∀ j, j < 30 → (forecastPoints demoSeries).getD j (0, 0) =
      (lastDate demoSeries + 1 + (j : ℤ),
       predict demoSeries ((demoSeries.length + j : ℕ) : ℚ))) ∧
    ((forecastPoints demoSeries).map Prod.fst).Sorted (· < ·) :=
  forecast_extrapolates_thirty_days demoSeries (by decide)

/-- C2: for every Dataset, the time-series builder yields one entry per
distinct date (membership in the series' dates is exactly membership among
the rows' dates, and the date column is strictly ascending, hence
duplicate-free), each entry's amount is the sum of that date's rows, and the
day-index column is the contiguous sequence `0, 1, ..., N-1`. -/
theorem daily_series_sorted_contiguous (df : List Record) :
    ((dailySeries df).map DailyEntry.idx = List.range (dailySeries df).length) ∧
    ((dailySeries df).map DailyEntry.date).Sorted (· < ·) ∧
    (∀ d : ℤ, d ∈ (dailySeries df).map DailyEntry.date ↔ ∃ r ∈ df, r.date = d) ∧
    (∀ e ∈ dailySeries df, e.amount = dateTotal df e.date) := by
  have hdate : (dailySeries df).map DailyEntry.date
      = List.insertionSort (· ≤ ·) (df.map Record.date).dedup := by
    unfold dailySeries
    rw [List.map_map]
    have : (DailyEntry.date ∘ fun p : ℕ × ℤ =>
        DailyEntry.mk p.2 (dateTotal df p.2) p.1) = Prod.snd := rfl
    rw [this, List.enum_map_snd]
  refine ⟨?_, ?_, ?_, ?_⟩
  · unfold dailySeries
    rw [List.map_map]
    have : (DailyEntry.idx ∘ fun p : ℕ × ℤ =>
        DailyEntry.mk p.2 (dateTotal df p.2) p.1) = Prod.fst := rfl
    rw [this, List.enum_map_fst, List.length_map, List.enum_length]
  · rw [hdate]
    exact sortedKeys_sorted_lt _
  · intro d
    rw [hdate, mem_sortedKeys, List.mem_map]
  · intro e he
    unfold dailySeries at he
    rcases List.mem_map.mp he with ⟨p, _, rfl⟩
    rfl

/-- C3: `validate_data` succeeds exactly when the table's column-name set
contains all nine required fields; on failure the error names precisely the
missing required columns (all of them); and a table missing only `gst` gets
an error naming exactly `gst`. -/
theorem validate_data_superset_check (columns : List String) :
    (validate_data columns = .ok () ↔ ∀ c ∈ REQUIRED_COLUMNS, c ∈ columns) ∧
    (∀ ms, validate_data columns = .error (.missingColumnsError ms) →
      ∀ c, c ∈ ms ↔ (c ∈ REQUIRED_COLUMNS ∧ ¬ c ∈ columns)) ∧
    validate_data (REQUIRED_COLUMNS.filter (fun c => c ≠ "gst")) =
      .error (.missingColumnsError ["gst"]) := by
  refine ⟨⟨?_, ?_⟩, ?_, rfl⟩
  · intro hok c hc
    by_contra hnc
    have hmem : c ∈ REQUIRED_COLUMNS.filter (fun c => ¬ c ∈ columns) := by
      simp only [List.mem_filter, decide_eq_true_eq]
      exact ⟨hc, hnc⟩
    simp only [validate_data] at hok
    rcases hemp : (REQUIRED_COLUMNS.filter fun c => ¬ c ∈ columns).isEmpty with _ | _
    · rw [hemp] at hok
      simp at hok
    · rw [List.isEmpty_iff] at hemp
      rw [hemp] at hmem
      simp at hmem
  · intro hall
    simp only [validate_data]
    have hnil : (REQUIRED_COLUMNS.filter fun c => ¬ c ∈ columns) = [] := by
      rw [List.filter_eq_nil_iff]
      intro c hc
      simp [hall c hc]
    simp only [hnil, List.isEmpty_nil, if_true]
  · intro ms hms c
    simp only [validate_data] at hms
    rcases hemp : (REQUIRED_COLUMNS.filter fun c => ¬ c ∈ columns).isEmpty with _ | _
    · rw [hemp] at hms
      simp only [Bool.false_eq_true, if_false, Except.error.injEq,
        PyError.missingColumnsError.injEq] at hms
      subst hms
      simp only [List.mem_filter, decide_eq_true_eq]
    · rw [hemp] at hms
      simp at hms

/-- C4: the code does NOT raise the documented `InsufficientDataError` on an
empty Dataset.  The empty Dataset serializes to the empty JSON array, whose
deserialization loses the column schema, so the forecast route fails with
`KeyError` on the `date` column — a different failure class than the one the
design documents. -/
theorem forecast_empty_dataset_key_error :
    forecast ([] : List JRow) = .error (.keyError "date") ∧
    (PyError.keyError "date") ≠ PyError.insufficientDataError :=
  ⟨rfl, by decide⟩

/-- C5: over an actual 30-point forecast (whose values lie on the fitted
line), the first drawn segment and marker are always green, and every later
segment from point `i` to point `i+1` is green exactly when its ending value
is at least its starting value.  The source compares each point against its
predecessor instead of each segment's endpoints, but on collinear forecast
values the two rules coincide. -/
theorem chart_segment_colors_follow_trend (s : List DailyEntry) (h : s ≠ []) :
    (chartColors (forecastValues s)).getD 0 .red = .green ∧
    (∀ i, 1 ≤ i → i + 1 < 30 →
      ((chartColors (forecastValues s)).getD i .red = .green ↔
        (forecastValues s).getD i 0 ≤ (forecastValues s).getD (i + 1) 0)) := by
  constructor
  · rw [chartColors_getD _ 0 (by rw [forecastValues_length]; omega)]
    rw [if_pos rfl]
  · intro i h1 h2
    rw [chartColors_getD _ i (by rw [forecastValues_length]; omega)]
    rw [if_neg (by omega)]
    rw [forecastValues_getD s (i - 1) (by omega), forecastValues_getD s i (by omega),
        forecastValues_getD s (i + 1) (by omega)]
    have e1 : (s.length + i : ℕ) = (s.length + (i - 1) : ℕ) + 1 := by omega
    have e2 : (s.length + (i + 1) : ℕ) = (s.length + (i - 1) : ℕ) + 2 := by omega
    rw [e1, e2]
    unfold predict
    push_cast
    set a := fitSlope s
    set b := fitIntercept s
    set x : ℚ := (s.length : ℚ) + ((i - 1 : ℕ) : ℚ)
    constructor
    · intro hg
      by_cases hle : a * x + b ≤ a * (x + 1) + b
      · nlinarith
      · rw [if_neg hle] at hg
        exact absurd hg (by decide)
    · intro hc
      have hle : a * x + b ≤ a * (x + 1) + b := by nlinarith
      rw [if_pos hle]

/-- Witness for C5: the coloring statement instantiated at the concrete
two-day series. -/
theorem chart_segment_colors_follow_trend_witness :
    (chartColors (forecastValues demoSeries)).getD 0 .red = .green ∧
    (∀ i, 1 ≤ i → i + 1 < 30 →
      ((chartColors (forecastValues demoSeries)).getD i .red = .green ↔
        (forecastValues demoSeries).getD i 0 ≤ (forecastValues demoSeries).getD (i + 1) 0)) :=
  chart_segment_colors_follow_trend demoSeries (by decide)

/-- C6: on the two-point daily series with amount 100 at day index 0 and
amount 200 at day index 1, the ordinary-least-squares fit is the line
`y = 100 x + 100`, and its value at day index 2 is 300. -/
theorem two_point_ols_scenario :
    fitSlope scenarioC = 100 ∧ fitIntercept scenarioC = 100 ∧ predict scenarioC 2 = 300 := by
  refine ⟨?_, ?_, ?_⟩ <;> norm_num [predict, fitSlope, fitIntercept, scenarioC]

/-- C7: for every Dataset and every grouping key, re-summing the per-group
`sale_amount` totals of `group_sum` over all groups recovers `summarize`'s
`total_sales`: grouping loses no row and counts none twice. -/
theorem group_sum_totals_match_summary (df : List Record) (key : Record → String) :
    ((group_sum df key).map Prod.snd).sum = (summarize df).total_sales := by
  show ((group_sum df key).map Prod.snd).sum = (df.map Record.sale_amount).sum
  unfold group_sum
  rw [List.map_map]
  have hcomp : (Prod.snd ∘ fun k =>
        (k, ((df.filter fun r => key r = k).map Record.sale_amount).sum))
      = fun k => ((df.filter fun r => key r = k).map Record.sale_amount).sum := rfl
  rw [hcomp]
  rw [((List.perm_insertionSort (· ≤ ·) (df.map key).dedup).map
    fun k => ((df.filter fun r => key r = k).map Record.sale_amount).sum).sum_eq]
  exact sum_filter_partition Record.sale_amount key df (df.map key).dedup
    (List.nodup_dedup _) fun r hr => List.mem_dedup.mpr (List.mem_map.mpr ⟨r, hr, rfl⟩)

/-- Counterexample to C8 as stated: for the EMPTY Dataset the serialized form
is the empty JSON array, deserialization loses the column schema, and the
forecast-stage Summary recomputation fails with `KeyError` instead of
reproducing the upload-stage Summary. -/
theorem empty_roundtrip_breaks_summary_recomputation :
    to_json ([] : List Record) = [] ∧
    forecast (to_json ([] : List Record)) = .error (.keyError "date") ∧
    ¬ ∃ out : ForecastOut, forecast (to_json ([] : List Record)) = .ok out ∧
        out.summary = summarize [] := by
  refine ⟨rfl, rfl, ?_⟩
  rintro ⟨out, hout, -⟩
  rw [show forecast (to_json ([] : List Record)) = .error (.keyError "date") from rfl] at hout
  cases hout

/-- C8 (amended to non-empty Datasets): serializing a non-empty valid Dataset
and deserializing it back reproduces every row's field values, dates
included, and the Summary the forecast route recomputes from the
round-tripped Dataset equals the upload-stage Summary. -/
theorem nonempty_roundtrip_preserves_summary (df : List Record) (h : df ≠ []) :
    (to_json df).mapM jrowToRecord = some df ∧
    ∃ out : ForecastOut, forecast (to_json df) = .ok out ∧ out.summary = summarize df := by
  refine ⟨to_json_roundtrip df, ?_⟩
  refine ⟨{ points := forecastPoints (dailySeries df)
            colors := chartColors (forecastValues (dailySeries df))
            summary := summarize df
            area_sales := group_sum df Record.area }, ?_, rfl⟩
  unfold forecast
  rw [if_neg ?hne, to_json_roundtrip df]
  case hne =>
    simp only [to_json, List.isEmpty_iff, List.map_eq_nil_iff]
    exact h

/-- Witness for C8's amended statement: the round trip at a concrete one-row
Dataset. -/
theorem nonempty_roundtrip_preserves_summary_witness :
    (to_json demoDataset).mapM jrowToRecord = some demoDataset ∧
    ∃ out : ForecastOut, forecast (to_json demoDataset) = .ok out ∧
      out.summary = summarize demoDataset :=
  nonempty_roundtrip_preserves_summary demoDataset (by decide)

/-- Counterexample to C9 as stated: a `sale_amount` column consisting only of
the digit strings "1" and "2" is non-numeric, yet `summarize` returns a
Summary (with total sales 12: pandas concatenates the strings and `float`
parses the concatenation) instead of failing. -/
theorem all_string_column_yields_summary :
    ((allStringAmountRows.map RawRow.sale_amount).all PyVal.isStr = true) ∧
    rawSummarize allStringAmountRows =
      .ok { total_sales := 12, total_profit := 5, total_units := 5, total_gst := 7 } := by
  refine ⟨rfl, ?_⟩
  have hA : seriesSum (allStringAmountRows.map RawRow.sale_amount) = .ok (.str "12") := rfl
  have hP : seriesSum (allStringAmountRows.map RawRow.profit) = .ok (.num (4 + 1)) := rfl
  have hC : seriesSum (allStringAmountRows.map RawRow.sale_count) = .ok (.num (2 + 3)) := rfl
  have hG : seriesSum (allStringAmountRows.map RawRow.gst) = .ok (.num (3 + 4)) := rfl
  have hfold : ("12".data.foldl (fun n c => 10 * n + (c.toNat - 48)) 0 : ℕ) = 12 := rfl
  have hF : pyFloat (.str "12") = .ok 12 := by
    show pyFloatOfString "12" = .ok 12
    unfold pyFloatOfString
    rw [if_pos (by decide)]
    rw [hfold]
    norm_num
  unfold rawSummarize
  rw [hA, ok_bind, hF, ok_bind, hP, ok_bind]
  rw [show pyFloat (.num (4 + 1)) = .ok (4 + 1) from rfl, ok_bind]
  rw [hC, ok_bind]
  rw [show pyInt (.num (2 + 3)) =
    .ok (if (0:ℚ) ≤ 2 + 3 then ⌊(2 + 3 : ℚ)⌋ else ⌈(2 + 3 : ℚ)⌉) from rfl]
  rw [if_pos (by norm_num)]
  rw [show ⌊(2 + 3 : ℚ)⌋ = 5 by norm_num, ok_bind]
  rw [hG, ok_bind]
  rw [show pyFloat (.num (3 + 4)) = .ok (3 + 4) from rfl, ok_bind]
  norm_num
  rfl

/-- C9 (amended): when one of the four numeric columns mixes a number with a
string, `summarize` fails with an error instead of returning a Summary (the
mixed column's sum raises `TypeError`; an earlier all-string column can at
worst turn this into `ValueError`) — it never silently coerces the column.
A column made up entirely of digit strings, however, escapes the check, as
the counterexample shows. -/
theorem mixed_column_summarize_errors (rows : List RawRow)
    (h : mixedCol (rows.map RawRow.sale_amount) ∨ mixedCol (rows.map RawRow.profit) ∨
         mixedCol (rows.map RawRow.sale_count) ∨ mixedCol (rows.map RawRow.gst)) :
    ∃ e, rawSummarize rows = .error e := by
  unfold rawSummarize
  rcases h with hA | hP | hC | hG
  · rw [seriesSum_mixed _ hA.1 hA.2]
    exact ⟨.typeError, rfl⟩
  · apply exists_error_bind
    intro s1 _
    apply exists_error_bind
    intro ts _
    rw [seriesSum_mixed _ hP.1 hP.2]
    exact ⟨.typeError, rfl⟩
  · apply exists_error_bind
    intro s1 _
    apply exists_error_bind
    intro ts _
    apply exists_error_bind
    intro s2 _
    apply exists_error_bind
    intro tp _
    rw [seriesSum_mixed _ hC.1 hC.2]
    exact ⟨.typeError, rfl⟩
  · apply exists_error_bind
    intro s1 _
    apply exists_error_bind
    intro ts _
    apply exists_error_bind
    intro s2 _
    apply exists_error_bind
    intro tp _
    apply exists_error_bind
    intro s3 _
    apply exists_error_bind
    intro tu _
    rw [seriesSum_mixed _ hG.1 hG.2]
    exact ⟨.typeError, rfl⟩

/-- Witness for C9's amended statement: summarizing a table whose `profit`
column mixes a string with a number fails. -/
theorem mixed_column_summarize_errors_witness :
    ∃ e, rawSummarize mixedProfitRows = .error e :=
  mixed_column_summarize_errors mixedProfitRows (by decide)

/-- C10: for every Dataset and grouping key, `group_sum` lists its groups in
strictly ascending key order, so repeated runs on the same Dataset produce
the same ordered grouped series (the group-key-ascending stability option). -/
theorem group_sum_keys_ascending (df : List Record) (key : Record → String) :
    ((group_sum df key).map Prod.fst).Sorted (· < ·) := by
  unfold group_sum
  rw [List.map_map]
  have hid : (Prod.fst ∘ fun k =>
      (k, ((df.filter fun r => key r = k).map Record.sale_amount).sum)) = id := rfl
  rw [hid, List.map_id]
  exact sortedKeys_sorted_lt _
